import Mathlib

/-!
Verification of the hipchat-notifications client library.

This file gives a shallow embedding, in Lean, of the Python modules
`hipchat/notifications.py`, `hipchat/exceptions.py` and `hipchat/logger.py`,
and proves properties of the embedded code.

Modelling conventions:
* Python strings are Lean `String`s (sequences of characters); the Python
  string operations the code uses (`s[:n]`, `str.split(',')`, `str.strip()`)
  are embedded as structurally recursive functions over `String.data` so that
  the kernel can evaluate them on concrete inputs.
* The process environment is a function `String → Option String`
  (`os.environ.get` / `os.getenv`).
* `random.choice(lst)` is modelled by an arbitrary index `choice : Nat`
  taken modulo the list length; a distribution fact "each element is chosen
  with nonzero probability" becomes "for each element there exists a choice
  index picking it".
* The HTTP transport (`requests.post`) is a parameter
  `PostRequest → TransportResult`: it either returns a response (of any
  status code) or raises a non-HTTP transport exception, which the code
  under study does not catch.
* Python exceptions are reified as outcome constructors: `AssertionError`
  raised by the `assert` statements in `_api` becomes `validationError`,
  `AssertionError` raised inside `HipChatError.__init__` becomes
  `contractViolation`, the `KeyError`/`TypeError` that
  `response.json()['error']['message']` can raise becomes `lookupError`,
  a raised `HipChatError` becomes `remoteError`, and returning `None`
  when no token is configured becomes `noop`.
-/

namespace HipChat

/-- A JSON value, as used for request and response bodies.  Arrays are not
needed by the code under study and are omitted. -/
inductive Json where
  | str (s : String)
  | bool (b : Bool)
  | num (n : Int)
  | obj (fields : List (String × Json))
deriving Repr

/-- The process environment: `os.environ.get(name)` / `os.getenv(name)`
returns the variable's value or `None`. -/
def Env : Type := String → Option String

/-- Python `str.isspace` on the whitespace characters relevant to
`str.strip()` with no arguments. -/
def pyIsSpace (c : Char) : Bool :=
  c == ' ' || c == '\t' || c == '\n' || c == '\r' || c == '\x0b' || c == '\x0c'

/-- Python `s.strip()`: remove leading and trailing whitespace. -/
def pyStrip (s : String) : String :=
  ⟨((s.data.dropWhile pyIsSpace).reverse.dropWhile pyIsSpace).reverse⟩

/-- Python `s.split(sep)` for a one-character separator, on the character
list: splitting at every occurrence of `sep`, keeping empty parts, so the
result always has one more element than there are separators
(`''.split(',') == ['']`). -/
def pySplitChars (sep : Char) : List Char → List (List Char)
  | [] => [[]]
  | c :: cs =>
    let rest := pySplitChars sep cs
    if c = sep then [] :: rest
    else
      match rest with
      | [] => [[c]]
      | r :: rs => (c :: r) :: rs

/-- Python `s.split(sep)` for a one-character separator. -/
def pySplit (s : String) (sep : Char) : List String :=
  (pySplitChars sep s.data).map (fun cs => ⟨cs⟩)

/-- Python `s[:n]`: the first `n` characters of `s` (all of `s` when it is
shorter). -/
def pyTake (s : String) (n : Nat) : String := ⟨s.data.take n⟩

/-- Source `notifications.py` lines 25-28, run at import time:

    if os.environ.get('HIPCHAT_API_SERVER'):
        API_SERVER_HOST = os.environ.get('HIPCHAT_SERVER')
    else:
        API_SERVER_HOST = 'api.hipchat.com'

The `if` tests truthiness, so an empty-string override falls through to the
default.  Note the two distinct variable names: the variable tested is
`HIPCHAT_API_SERVER` but the variable read is `HIPCHAT_SERVER`.  The result
is `Option String` because `os.environ.get('HIPCHAT_SERVER')` can be `None`
(in which case the subsequent `'https://' + API_SERVER_HOST` raises
`TypeError` and the module fails to import). -/
def API_SERVER_HOST (env : Env) : Option String :=
  match env "HIPCHAT_API_SERVER" with
  | some s => if s = "" then some "api.hipchat.com" else env "HIPCHAT_SERVER"
  | none => some "api.hipchat.com"

/-- Source `notifications.py` line 30: `API_V2_ROOT = 'https://' + API_SERVER_HOST + '/v2/'`,
for a module that imported successfully with host value `host`. -/
def API_V2_ROOT (host : String) : String := "https://" ++ host ++ "/v2/"

/-- Source `notifications.py` line 31:
`SEND_USER_MESSAGE_URL = lambda user: "{}user/{}/message".format(API_V2_ROOT, user)`. -/
def SEND_USER_MESSAGE_URL (host user : String) : String :=
  API_V2_ROOT host ++ "user/" ++ user ++ "/message"

/-- Source `notifications.py` line 32:
`SEND_ROOM_MESSAGE_URL = lambda room: "{}room/{}/notification".format(API_V2_ROOT, room)`. -/
def SEND_ROOM_MESSAGE_URL (host room : String) : String :=
  API_V2_ROOT host ++ "room/" ++ room ++ "/notification"

/-- Source `notifications.py` line 33. -/
def VALID_COLORS : List String := ["yellow", "green", "red", "purple", "gray", "random"]

/-- Source `notifications.py` line 34. -/
def VALID_FORMATS : List String := ["text", "html"]

/-- Source `exceptions.py` line 3. -/
def BAD_RESPONSE_CODES : List Nat := [400, 401, 403, 404, 405, 429, 500, 503]

/-- Source `notifications.py` `_token()`: read `HIPCHAT_API_TOKEN`; if unset the
`token.split` attribute access raises `AttributeError`, caught to return
`None`; otherwise split on commas, pick one part at random
(`random.choice`, modelled by the index `choice % length`) and strip
whitespace. -/
def _token (tokenEnv : Option String) (choice : Nat) : Option String :=
  match tokenEnv with
  | none => none
  | some t =>
    let parts := pySplit t ','
    some (pyStrip (parts.getD (choice % parts.length) ""))

/-- The headers dict built by `_headers`. -/
structure Headers where
  authorization : String
  host : String
  contentType : String
deriving Repr, DecidableEq

/-- Source `notifications.py` `_headers(auth_token)`, for a module whose
`API_SERVER_HOST` is `host`. -/
def _headers (host : String) (auth_token : String) : Headers :=
  { authorization := "Bearer " ++ auth_token
  , host := host
  , contentType := "application/json" }

/-- An HTTP response: its status code and the result of `response.json()`.
The code under study only ever treats the body as a JSON object (a dict),
which is what the HipChat API returns, so the body is modelled as the
dict's key/value list. -/
structure HttpResponse where
  status_code : Nat
  json : List (String × Json)

/-- The arguments of a `requests.post(url, json=data, headers=headers)`
call. -/
structure PostRequest where
  url : String
  body : List (String × Json)
  headers : Headers

/-- What `requests.post` does: return a response (of any status), or raise
a transport-level exception that is not a `requests.HTTPError` (for example
`ConnectionError`), which `_api` does not catch. -/
inductive TransportResult where
  | resp (r : HttpResponse)
  | err (e : String)

/-- The result of `HipChatError.__init__(response)` (`exceptions.py`):
first `assert response.status_code in BAD_RESPONSE_CODES`, then
`assert 'error' in response.json()`, then
`self.message = response.json()['error']['message']` -- which raises
`TypeError` when the `error` value is not a dict, and `KeyError` when the
dict has no `message` key. -/
inductive InitResult where
  | ok (status_code : Nat) (message : Json)
  | contractViolation (msg : String)
  | lookupError (msg : String)

/-- Source `exceptions.py` `HipChatError.__init__`. -/
def HipChatError_init (r : HttpResponse) : InitResult :=
  if r.status_code ∈ BAD_RESPONSE_CODES then
    match r.json.lookup "error" with
    | none => .contractViolation "Invalid HipChatError response.json()"
    | some (.obj fields) =>
      match fields.lookup "message" with
      | some m => .ok r.status_code m
      | none => .lookupError "KeyError: message"
    | some _ => .lookupError "TypeError: error value is not a dict"
  else .contractViolation "Invalid HipChatError response.status_code"

/-- The `data` dict built in `_api` (`notifications.py` lines 118-124):

    data = {
        'message': message[:10000],
        'color': color,
        'notify': notify,
        'message_format': message_format,
        'from': label[:64] if label else ''
    }

where `label[:64] if label else ''` is `''` exactly when `label` is falsy,
that is `None` or the empty string. -/
def apiData (message color : String) (notify : Bool) (message_format : String)
    (label : Option String) : List (String × Json) :=
  [("message", .str (pyTake message 10000)),
   ("color", .str color),
   ("notify", .bool notify),
   ("message_format", .str message_format),
   ("from", .str (match label with
     | none => ""
     | some l => if l = "" then "" else pyTake l 64))]

/-- How a call of `_api` terminates, with each Python control-flow exit
reified as a constructor (see the module docstring above). -/
inductive ApiOutcome where
  | validationError (msg : String)
  | noop
  | success (r : HttpResponse)
  | remoteError (status_code : Nat) (message : Json)
  | contractViolation (msg : String)
  | lookupError (msg : String)
  | transportError (e : String)

/-- The observable behaviour of one `_api` call: how it terminated, the
POST request it issued (if any), and the log records it emitted, as
(level, text) pairs. -/
structure ApiCall where
  outcome : ApiOutcome
  posted : Option PostRequest
  logged : List (String × String)

/-- The send phase of `_api` (`notifications.py` lines 126-131), reached
after validation has passed and a token has been resolved:

    try:
        resp = requests.post(url, json=data, headers=headers)
        resp.raise_for_status()
        return resp
    except requests.HTTPError as ex:
        raise HipChatError(ex.response)

`resp.raise_for_status()` raises `requests.HTTPError` exactly for status
codes in [400, 600); the `except` clause catches only `requests.HTTPError`,
so any other transport exception propagates unchanged; and whatever
`HipChatError.__init__` does (constructing the error, or itself raising
`AssertionError`/`KeyError`/`TypeError`) propagates out of the `raise`. -/
def apiSend (host tk : String) (transport : PostRequest → TransportResult)
    (url : String) (data : List (String × Json)) : ApiCall :=
  match transport ⟨url, data, _headers host tk⟩ with
  | .err e => ⟨.transportError e, some ⟨url, data, _headers host tk⟩, []⟩
  | .resp r =>
    if 400 ≤ r.status_code ∧ r.status_code < 600 then
      match HipChatError_init r with
      | .ok st m => ⟨.remoteError st m, some ⟨url, data, _headers host tk⟩, []⟩
      | .contractViolation m =>
        ⟨.contractViolation m, some ⟨url, data, _headers host tk⟩, []⟩
      | .lookupError m => ⟨.lookupError m, some ⟨url, data, _headers host tk⟩, []⟩
    else ⟨.success r, some ⟨url, data, _headers host tk⟩, []⟩

/-- Source `notifications.py` `_api(url, message, color, label, notify, message_format)`,
for a module whose `API_SERVER_HOST` is `host`, with the environment's
`HIPCHAT_API_TOKEN` value `tokenEnv`, the random choice index `choice`, and
the HTTP transport `transport`.

Mirrors the source line by line: the four `assert`s, then `_token()` with
the no-token debug-log-and-return path, then the headers and the `data`
dict (`message[:10000]`, `color`, `notify`, `message_format`, and `from`
set to `label[:64] if label else ''`), then the POST;
`resp.raise_for_status()` raises `requests.HTTPError` exactly for status
codes in [400, 600), which the `except` clause turns into
`raise HipChatError(ex.response)`. -/
def _api (host : String) (tokenEnv : Option String) (choice : Nat)
    (transport : PostRequest → TransportResult)
    (url : String) (message : Option String) (color : String)
    (label : Option String) (notify : Bool) (message_format : String) : ApiCall :=
  match message with
  | none => ⟨.validationError "Missing message param", none, []⟩
  | some msg =>
    if msg.length < 1 then
      ⟨.validationError "Message too short, must be 1-10,000 chars.", none, []⟩
    else if color ∉ VALID_COLORS then
      ⟨.validationError ("Invalid color value: " ++ color), none, []⟩
    else if message_format ∉ VALID_FORMATS then
      ⟨.validationError ("Invalid format: " ++ message_format), none, []⟩
    else
      match _token tokenEnv choice with
      | none =>
        ⟨.noop, none,
         [("DEBUG", "HipChat API token not found, logging message instead:"),
          ("DEBUG", msg)]⟩
      | some tok =>
        apiSend host tok transport url (apiData msg color notify message_format label)

/-- Source `notifications.py` `notify_room(room, message, color='yellow', label=None,
notify=False, message_format='html')`. -/
def notify_room (host : String) (tokenEnv : Option String) (choice : Nat)
    (transport : PostRequest → TransportResult)
    (room : String) (message : Option String) (color : String)
    (label : Option String) (notify : Bool) (message_format : String) : ApiCall :=
  _api host tokenEnv choice transport (SEND_ROOM_MESSAGE_URL host room)
    message color label notify message_format

/-- Source `notifications.py` `notify_user(user, message, notify=False,
message_format='html')`: delegates to `_api` without passing `color` or
`label`, so `_api`'s defaults `color='yellow'`, `label=None` apply. -/
def notify_user (host : String) (tokenEnv : Option String) (choice : Nat)
    (transport : PostRequest → TransportResult)
    (user : String) (message : Option String)
    (notify : Bool) (message_format : String) : ApiCall :=
  _api host tokenEnv choice transport (SEND_USER_MESSAGE_URL host user)
    message "yellow" none notify message_format

/-- A log record as `HipChatHandler.emit` consumes it: `record.levelname`
and the formatted text `record.getMessage()`. -/
structure LogRecord where
  levelname : String
  message : String

/-- Source `logger.py` `HipChatHandler.DEFAULT_COLOURS`. -/
def DEFAULT_COLOURS : List (String × String) :=
  [("DEBUG", "gray"), ("INFO", "yellow"), ("WARN", "purple"),
   ("WARNING", "purple"), ("ERROR", "red"), ("CRITICAL", "red")]

/-- Source `logger.py` `HipChatHandler.__init__` state. -/
structure HipChatHandler where
  token : String
  room : String
  label : String
  notify : Bool
  colors : List (String × String)
  message_format : String

/-- Source `logger.py` `HipChatHandler.emit(record)`:

    notify_room(self.room, record.getMessage(),
                color=self.colors.get(record.levelname, 'yellow'),
                label=self.label, notify=self.notify,
                message_format=self.message_format)

`dict.get(key, 'yellow')` is association-list lookup with default. -/
def HipChatHandler.emit (h : HipChatHandler) (host : String)
    (tokenEnv : Option String) (choice : Nat)
    (transport : PostRequest → TransportResult) (record : LogRecord) : ApiCall :=
  notify_room host tokenEnv choice transport h.room (some record.message)
    ((List.lookup record.levelname h.colors).getD "yellow")
    (some h.label) h.notify h.message_format

/-! ## General lemmas about the embedded code -/

/-- Python `s[:n]` keeps `min n (len s)` characters. -/
theorem pyTake_length (s : String) (n : Nat) : (pyTake s n).length = min n s.length := by
  show (s.data.take n).length = min n s.data.length
  simp [List.length_take]

/-- When `HIPCHAT_API_TOKEN` is set, `_token` returns the stripped randomly
chosen comma-separated part (never `None`). -/
theorem _token_some (t : String) (choice : Nat) :
    _token (some t) choice
      = some (pyStrip ((pySplit t ',').getD (choice % (pySplit t ',').length) "")) := rfl

/-- When `HIPCHAT_API_TOKEN` is set to the empty string, `_token` returns
the empty string: `''.split(',') == ['']` and `random.choice([''])` is `''`. -/
theorem _token_empty (choice : Nat) : _token (some "") choice = some "" := by
  simp [_token, pySplit, pySplitChars, pyStrip, Nat.mod_one]

/-- Every member of `BAD_RESPONSE_CODES` is in the range [400, 600) for
which `requests.Response.raise_for_status` raises `HTTPError`. -/
theorem bad_code_range (s : Nat) (h : s ∈ BAD_RESPONSE_CODES) : 400 ≤ s ∧ s < 600 := by
  fin_cases h <;> omega

/-- Whatever the transport does, the send phase posts exactly one request,
built from the url, the data dict and the headers. -/
theorem apiSend_posted (host tk : String) (transport : PostRequest → TransportResult)
    (url : String) (data : List (String × Json)) :
    (apiSend host tk transport url data).posted = some ⟨url, data, _headers host tk⟩ := by
  unfold apiSend
  cases transport ⟨url, data, _headers host tk⟩ with
  | err e => rfl
  | resp r =>
    dsimp only
    by_cases hr : 400 ≤ r.status_code ∧ r.status_code < 600
    · rw [if_pos hr]
      cases HipChatError_init r <;> rfl
    · rw [if_neg hr]

/-- When validation passes and a token resolves, `_api` issues exactly one
POST with the constructed body and headers, whatever the transport then
does. -/
theorem _api_posted (host : String) (tokenEnv : Option String) (tk : String)
    (choice : Nat) (transport : PostRequest → TransportResult)
    (url msg color : String) (label : Option String) (notify : Bool) (fmt : String)
    (hmsg : 1 ≤ msg.length) (hc : color ∈ VALID_COLORS) (hf : fmt ∈ VALID_FORMATS)
    (htok : _token tokenEnv choice = some tk) :
    (_api host tokenEnv choice transport url (some msg) color label notify fmt).posted
      = some ⟨url, apiData msg color notify fmt label, _headers host tk⟩ := by
  simp only [_api]
  rw [if_neg (show ¬ msg.length < 1 by omega), if_neg (not_not_intro hc),
    if_neg (not_not_intro hf), htok]
  exact apiSend_posted host tk transport url (apiData msg color notify fmt label)

/-- Any `_api` call violating one of the four `assert`ed preconditions
raises `AssertionError` before resolving a token or touching the network. -/
theorem _api_validation (host : String) (tokenEnv : Option String) (choice : Nat)
    (transport : PostRequest → TransportResult) (url : String)
    (message : Option String) (color : String) (label : Option String)
    (notify : Bool) (fmt : String)
    (h : message = none ∨ message = some "" ∨ color ∉ VALID_COLORS ∨ fmt ∉ VALID_FORMATS) :
    (∃ m, (_api host tokenEnv choice transport url message color label notify fmt).outcome
        = ApiOutcome.validationError m)
    ∧ (_api host tokenEnv choice transport url message color label notify fmt).posted = none := by
  rcases h with rfl | rfl | h | h
  · exact ⟨⟨_, rfl⟩, rfl⟩
  · exact ⟨⟨_, rfl⟩, rfl⟩
  · cases message with
    | none => exact ⟨⟨_, rfl⟩, rfl⟩
    | some msg =>
      by_cases hl : msg.length < 1
      · have hcall : _api host tokenEnv choice transport url (some msg) color label notify fmt
            = ⟨.validationError "Message too short, must be 1-10,000 chars.", none, []⟩ := by
          simp [_api, hl]
        exact ⟨⟨_, by rw [hcall]⟩, by rw [hcall]⟩
      · have hcall : _api host tokenEnv choice transport url (some msg) color label notify fmt
            = ⟨.validationError ("Invalid color value: " ++ color), none, []⟩ := by
          simp [_api, hl, h]
        exact ⟨⟨_, by rw [hcall]⟩, by rw [hcall]⟩
  · cases message with
    | none => exact ⟨⟨_, rfl⟩, rfl⟩
    | some msg =>
      by_cases hl : msg.length < 1
      · have hcall : _api host tokenEnv choice transport url (some msg) color label notify fmt
            = ⟨.validationError "Message too short, must be 1-10,000 chars.", none, []⟩ := by
          simp [_api, hl]
        exact ⟨⟨_, by rw [hcall]⟩, by rw [hcall]⟩
      · by_cases hc : color ∈ VALID_COLORS
        · have hcall : _api host tokenEnv choice transport url (some msg) color label notify fmt
              = ⟨.validationError ("Invalid format: " ++ fmt), none, []⟩ := by
            simp [_api, hl, hc, h]
          exact ⟨⟨_, by rw [hcall]⟩, by rw [hcall]⟩
        · have hcall : _api host tokenEnv choice transport url (some msg) color label notify fmt
              = ⟨.validationError ("Invalid color value: " ++ color), none, []⟩ := by
            simp [_api, hl, hc]
          exact ⟨⟨_, by rw [hcall]⟩, by rw [hcall]⟩

/-- A validated `_api` call with no token configured returns the no-op
result, posts nothing, and debug-logs the message content. -/
theorem _api_no_token (host : String) (choice : Nat)
    (transport : PostRequest → TransportResult) (url msg color : String)
    (label : Option String) (notify : Bool) (fmt : String)
    (hmsg : 1 ≤ msg.length) (hc : color ∈ VALID_COLORS) (hf : fmt ∈ VALID_FORMATS) :
    _api host none choice transport url (some msg) color label notify fmt
      = ⟨.noop, none,
         [("DEBUG", "HipChat API token not found, logging message instead:"),
          ("DEBUG", msg)]⟩ := by
  simp only [_api]
  rw [if_neg (show ¬ msg.length < 1 by omega), if_neg (not_not_intro hc),
    if_neg (not_not_intro hf)]
  rfl

/-- The `from` field value simplifies: `label[:64] if label else ''` equals
the label truncated to 64 characters, or `''` when there is no label,
because truncating the empty string is again the empty string. -/
theorem from_value_eq (label : Option String) :
    (match label with | none => "" | some l => if l = "" then "" else pyTake l 64)
      = (label.map (fun l => pyTake l 64)).getD "" := by
  cases label with
  | none => rfl
  | some l =>
    by_cases h : l = ""
    · subst h; rfl
    · simp [h]

/-- A validated `_api` call with a resolved token is exactly the send
phase on the constructed data. -/
theorem _api_send_eq (host : String) (tokenEnv : Option String) (tk : String)
    (choice : Nat) (transport : PostRequest → TransportResult)
    (url msg color : String) (label : Option String) (notify : Bool) (fmt : String)
    (hmsg : 1 ≤ msg.length) (hc : color ∈ VALID_COLORS) (hf : fmt ∈ VALID_FORMATS)
    (htok : _token tokenEnv choice = some tk) :
    _api host tokenEnv choice transport url (some msg) color label notify fmt
      = apiSend host tk transport url (apiData msg color notify fmt label) := by
  simp only [_api]
  rw [if_neg (show ¬ msg.length < 1 by omega), if_neg (not_not_intro hc),
    if_neg (not_not_intro hf), htok]

/-- When the transport yields a response with an error status (in
[400, 600)), the send phase's outcome is determined by
`HipChatError.__init__` on that response. -/
theorem apiSend_resp_outcome (host tk url : String) (data : List (String × Json))
    (r : HttpResponse) (h4 : 400 ≤ r.status_code) (h6 : r.status_code < 600) :
    (apiSend host tk (fun _ => TransportResult.resp r) url data).outcome
      = match HipChatError_init r with
        | .ok st m => ApiOutcome.remoteError st m
        | .contractViolation m => ApiOutcome.contractViolation m
        | .lookupError m => ApiOutcome.lookupError m := by
  unfold apiSend
  dsimp only
  rw [if_pos ⟨h4, h6⟩]
  cases HipChatError_init r <;> rfl

/-- Lemma: `HipChatError.__init__` succeeds exactly on a bad-status response
whose JSON has an `error` object with a `message` field, extracting the
status code and that message. -/
theorem HipChatError_init_ok (status : Nat) (body efields : List (String × Json))
    (em : Json) (hstatus : status ∈ BAD_RESPONSE_CODES)
    (hbody : body.lookup "error" = some (Json.obj efields))
    (hmsgf : efields.lookup "message" = some em) :
    HipChatError_init ⟨status, body⟩ = .ok status em := by
  unfold HipChatError_init
  dsimp only
  rw [if_pos hstatus, hbody]
  dsimp only
  rw [hmsgf]

/-- Lemma: `HipChatError.__init__` hits the second `assert` when the JSON body
has no `error` key. -/
theorem HipChatError_init_no_error_key (status : Nat) (body : List (String × Json))
    (hstatus : status ∈ BAD_RESPONSE_CODES)
    (hbody : body.lookup "error" = none) :
    HipChatError_init ⟨status, body⟩
      = .contractViolation "Invalid HipChatError response.json()" := by
  unfold HipChatError_init
  dsimp only
  rw [if_pos hstatus, hbody]

/-! ## Claims -/

/-- An environment in which `HIPCHAT_API_SERVER` is set to a host name and
nothing else is set (in particular `HIPCHAT_SERVER` is absent). -/
def envApiServerOnly : Env :=
  fun v => if v = "HIPCHAT_API_SERVER" then some "chat.example.com" else none

/-- C2: the module-level host resolution reads the wrong variable.  When
the override variable `HIPCHAT_API_SERVER` is set to `chat.example.com`
(and `HIPCHAT_SERVER` is absent), the resolved host is `None`, not the
configured value -- `os.environ.get('HIPCHAT_SERVER')` on line 26 reads a
different variable than line 25 tests -- so the claimed behaviour fails;
the fallback half of the claim (absent override gives `api.hipchat.com`)
does hold. -/
theorem C2_host_override_reads_wrong_variable :
    API_SERVER_HOST envApiServerOnly = none
    ∧ API_SERVER_HOST envApiServerOnly ≠ some "chat.example.com"
    ∧ API_SERVER_HOST (fun _ => none) = some "api.hipchat.com" := by
  refine ⟨rfl, ?_, rfl⟩
  intro h
  rw [show API_SERVER_HOST envApiServerOnly = none from rfl] at h
  exact Option.noConfusion h

/-- C5: with no `HIPCHAT_API_TOKEN` in the environment, a validated
`notify_room` or `notify_user` call issues no HTTP request, debug-logs the
message content, and returns the no-op result (Python `None`, here
`noop`) -- not an error. -/
theorem C5_no_credential_is_noop (host : String) (choice : Nat)
    (transport : PostRequest → TransportResult) (room user msg color fmt : String)
    (label : Option String) (notify : Bool)
    (hmsg : 1 ≤ msg.length) (hc : color ∈ VALID_COLORS) (hf : fmt ∈ VALID_FORMATS) :
    notify_room host none choice transport room (some msg) color label notify fmt
      = ⟨.noop, none,
         [("DEBUG", "HipChat API token not found, logging message instead:"),
          ("DEBUG", msg)]⟩
    ∧ notify_user host none choice transport user (some msg) notify fmt
      = ⟨.noop, none,
         [("DEBUG", "HipChat API token not found, logging message instead:"),
          ("DEBUG", msg)]⟩ :=
  ⟨_api_no_token host choice transport (SEND_ROOM_MESSAGE_URL host room) msg color
      label notify fmt hmsg hc hf,
   _api_no_token host choice transport (SEND_USER_MESSAGE_URL host user) msg "yellow"
      none notify fmt hmsg (by decide) hf⟩

/-- C5 witness: a concrete no-credential `notify_room('room','msg')` call
returns the no-op result and posts nothing. -/
theorem C5_no_credential_is_noop_witness :
    notify_room "api.hipchat.com" none 0 (fun _ => .err "network down") "room"
        (some "msg") "yellow" none false "html"
      = ⟨.noop, none,
         [("DEBUG", "HipChat API token not found, logging message instead:"),
          ("DEBUG", "msg")]⟩
    ∧ notify_user "api.hipchat.com" none 0 (fun _ => .err "network down") "fred"
        (some "msg") false "html"
      = ⟨.noop, none,
         [("DEBUG", "HipChat API token not found, logging message instead:"),
          ("DEBUG", "msg")]⟩ :=
  C5_no_credential_is_noop "api.hipchat.com" 0 (fun _ => .err "network down")
    "room" "fred" "msg" "yellow" "html" none false (by decide) (by decide) (by decide)

/-- C10: with `HIPCHAT_API_TOKEN` set to the empty string, token
resolution yields `''` (not `None`), so the no-op path is skipped and a
POST is issued whose authorization header is the empty bearer token
`Bearer `. -/
theorem C10_empty_token_posts_empty_bearer (host url msg color fmt : String)
    (choice : Nat) (transport : PostRequest → TransportResult)
    (label : Option String) (notify : Bool)
    (hmsg : 1 ≤ msg.length) (hc : color ∈ VALID_COLORS) (hf : fmt ∈ VALID_FORMATS) :
    _token (some "") choice = some ""
    ∧ ∃ req,
        (_api host (some "") choice transport url (some msg) color label notify
            fmt).posted = some req
        ∧ req.headers.authorization = "Bearer " := by
  refine ⟨_token_empty choice, ⟨url, apiData msg color notify fmt label, _headers host ""⟩,
    _api_posted host (some "") "" choice transport url msg color label notify fmt
      hmsg hc hf (_token_empty choice), rfl⟩

/-- C10 witness: a concrete call with the token variable set to `''`
posts with authorization header exactly `Bearer `. -/
theorem C10_empty_token_posts_empty_bearer_witness :
    _token (some "") 0 = some ""
    ∧ ∃ req,
        (_api "api.hipchat.com" (some "") 0 (fun _ => .err "network down") "u"
            (some "hi") "yellow" none false "html").posted = some req
        ∧ req.headers.authorization = "Bearer " :=
  C10_empty_token_posts_empty_bearer "api.hipchat.com" "u" "hi" "yellow" "html" 0
    (fun _ => .err "network down") none false (by decide) (by decide) (by decide)

/-- C1 counterexample: the concrete call `notify_user('fred','hi')` (with a
token configured) does POST to the user-message URL, but its body DOES
contain a `color` field -- `_api` always includes `color`, and
`notify_user` leaves it at the default `yellow`. -/
theorem C1_counterexample :
    ∃ req,
      (notify_user "api.hipchat.com" (some "token") 0 (fun _ => .err "network down")
          "fred" (some "hi") false "html").posted = some req
      ∧ req.url = "https://api.hipchat.com/v2/user/fred/message"
      ∧ req.body.lookup "color" = some (Json.str "yellow")
      ∧ req.body.lookup "color" ≠ none := by
  refine ⟨⟨SEND_USER_MESSAGE_URL "api.hipchat.com" "fred",
    apiData "hi" "yellow" false "html" none, _headers "api.hipchat.com" "token"⟩,
    _api_posted "api.hipchat.com" (some "token") "token" 0 (fun _ => .err "network down")
      (SEND_USER_MESSAGE_URL "api.hipchat.com" "fred") "hi" "yellow" none false "html"
      (by decide) (by decide) (by decide) rfl,
    rfl, rfl, ?_⟩
  intro h
  exact Option.noConfusion ((show List.lookup "color" (apiData "hi" "yellow" false "html" none)
    = some (Json.str "yellow") from rfl) ▸ h)

/-- C1 (amended): for any configured token, `notify_user('fred','hi')`
issues a POST to the user-message endpoint URL with `fred` substituted
into the path, and the JSON body's `color` field is the default
`yellow`. -/
theorem C1_user_message_url (tok : String) (choice : Nat)
    (transport : PostRequest → TransportResult) :
    (notify_user "api.hipchat.com" (some tok) choice transport "fred" (some "hi")
        false "html").posted.map (fun r => (r.url, r.body.lookup "color"))
      = some ("https://api.hipchat.com/v2/user/fred/message", some (Json.str "yellow")) := by
  rw [notify_user,
    _api_posted "api.hipchat.com" (some tok) _ choice transport
      (SEND_USER_MESSAGE_URL "api.hipchat.com" "fred") "hi" "yellow" none false "html"
      (by decide) (by decide) (by decide) (_token_some tok choice)]
  rfl

/-- C1 (amended) witness: the concrete call with a configured token. -/
theorem C1_user_message_url_witness :
    (notify_user "api.hipchat.com" (some "token") 0 (fun _ => .err "network down")
        "fred" (some "hi") false "html").posted.map
      (fun r => (r.url, r.body.lookup "color"))
      = some ("https://api.hipchat.com/v2/user/fred/message", some (Json.str "yellow")) :=
  C1_user_message_url "token" 0 (fun _ => .err "network down")

/-- C3: any `notify_room` call whose message is absent or empty, whose
color is outside `VALID_COLORS`, or whose format is outside
`VALID_FORMATS`, and any `notify_user` call whose message is absent or
empty or whose format is invalid (a `notify_user` call's color is always
the default `yellow`, which is valid), fails with `AssertionError` from a
validation `assert` -- a local failure -- and no HTTP request is posted. -/
theorem C3_validation_failures (host : String) (tokenEnv : Option String)
    (choice : Nat) (transport : PostRequest → TransportResult) (room user : String)
    (message : Option String) (color : String) (label : Option String)
    (notify : Bool) (fmt : String) :
    ((message = none ∨ message = some "" ∨ color ∉ VALID_COLORS ∨ fmt ∉ VALID_FORMATS) →
      (∃ m, (notify_room host tokenEnv choice transport room message color label
          notify fmt).outcome = ApiOutcome.validationError m)
      ∧ (notify_room host tokenEnv choice transport room message color label
          notify fmt).posted = none)
    ∧ ((message = none ∨ message = some "" ∨ fmt ∉ VALID_FORMATS) →
      (∃ m, (notify_user host tokenEnv choice transport user message notify
          fmt).outcome = ApiOutcome.validationError m)
      ∧ (notify_user host tokenEnv choice transport user message notify
          fmt).posted = none) := by
  constructor
  · intro h
    exact _api_validation host tokenEnv choice transport
      (SEND_ROOM_MESSAGE_URL host room) message color label notify fmt h
  · intro h
    refine _api_validation host tokenEnv choice transport
      (SEND_USER_MESSAGE_URL host user) message "yellow" none notify fmt ?_
    rcases h with h | h | h
    · exact Or.inl h
    · exact Or.inr (Or.inl h)
    · exact Or.inr (Or.inr (Or.inr h))

/-- C3 witness: a concrete `notify_room` call with an empty message fails
with a validation `AssertionError` and posts nothing. -/
theorem C3_validation_failures_witness :
    (∃ m, (notify_room "api.hipchat.com" (some "token") 0 (fun _ => .err "network down")
        "room" (some "") "yellow" none false "html").outcome
        = ApiOutcome.validationError m)
    ∧ (notify_room "api.hipchat.com" (some "token") 0 (fun _ => .err "network down")
        "room" (some "") "yellow" none false "html").posted = none :=
  (C3_validation_failures "api.hipchat.com" (some "token") 0 (fun _ => .err "network down")
      "room" "fred" (some "") "yellow" none false "html").1 (Or.inr (Or.inl rfl))

/-- C4: every validated, credentialed `_api` call builds a body whose
`message` is the message truncated to at most 10,000 characters (exactly
the first 10,000 when longer), together with the color, the notify flag,
the message format, and `from` set to the label truncated to 64
characters, or the empty string when no label is given. -/
theorem C4_request_body (host tok url msg color fmt : String) (choice : Nat)
    (transport : PostRequest → TransportResult) (label : Option String) (notify : Bool)
    (hmsg : 1 ≤ msg.length) (hc : color ∈ VALID_COLORS) (hf : fmt ∈ VALID_FORMATS) :
    ∃ req,
      (_api host (some tok) choice transport url (some msg) color label notify
          fmt).posted = some req
      ∧ req.body.lookup "message" = some (Json.str (pyTake msg 10000))
      ∧ (pyTake msg 10000).length = min 10000 msg.length
      ∧ req.body.lookup "color" = some (Json.str color)
      ∧ req.body.lookup "notify" = some (Json.bool notify)
      ∧ req.body.lookup "message_format" = some (Json.str fmt)
      ∧ req.body.lookup "from"
        = some (Json.str ((label.map (fun l => pyTake l 64)).getD "")) := by
  refine ⟨⟨url, apiData msg color notify fmt label, _headers host _⟩,
    _api_posted host (some tok) _ choice transport url msg color label notify fmt
      hmsg hc hf (_token_some tok choice),
    rfl, pyTake_length msg 10000, rfl, rfl, rfl, ?_⟩
  show some (Json.str _) = some (Json.str _)
  rw [from_value_eq]

/-- C4 witness: a concrete validated, credentialed call builds exactly the
claimed body fields. -/
theorem C4_request_body_witness :
    ∃ req,
      (_api "api.hipchat.com" (some "token") 0 (fun _ => .err "network down") "u"
          (some "hi") "green" (some "lbl") true "text").posted = some req
      ∧ req.body.lookup "message" = some (Json.str (pyTake "hi" 10000))
      ∧ (pyTake "hi" 10000).length = min 10000 ("hi" : String).length
      ∧ req.body.lookup "color" = some (Json.str "green")
      ∧ req.body.lookup "notify" = some (Json.bool true)
      ∧ req.body.lookup "message_format" = some (Json.str "text")
      ∧ req.body.lookup "from"
        = some (Json.str (((some "lbl").map (fun l => pyTake l 64)).getD "")) :=
  C4_request_body "api.hipchat.com" "token" "u" "hi" "green" "text" 0
    (fun _ => .err "network down") (some "lbl") true (by decide) (by decide) (by decide)

/-- C6: when `HIPCHAT_API_TOKEN` holds `a,b,c`, each of the three tokens is
a possible outcome of `random.choice`: for each of `a`, `b`, `c` there is a
choice index under which that token (whitespace-stripped) is resolved and
used as the bearer token of the issued request. -/
theorem C6_each_token_reachable (transport : PostRequest → TransportResult) :
    ∀ t ∈ (["a", "b", "c"] : List String), ∃ i : Nat,
      _token (some "a,b,c") i = some t
      ∧ ∃ req,
          (notify_room "api.hipchat.com" (some "a,b,c") i transport "room"
              (some "hello") "yellow" none false "html").posted = some req
          ∧ req.headers.authorization = "Bearer " ++ t := by
  intro t ht
  fin_cases ht
  · exact ⟨0, rfl, ⟨_, apiData "hello" "yellow" false "html" none, _⟩,
      _api_posted "api.hipchat.com" (some "a,b,c") "a" 0 transport
        (SEND_ROOM_MESSAGE_URL "api.hipchat.com" "room") "hello" "yellow" none false
        "html" (by decide) (by decide) (by decide) rfl, rfl⟩
  · exact ⟨1, rfl, ⟨_, apiData "hello" "yellow" false "html" none, _⟩,
      _api_posted "api.hipchat.com" (some "a,b,c") "b" 1 transport
        (SEND_ROOM_MESSAGE_URL "api.hipchat.com" "room") "hello" "yellow" none false
        "html" (by decide) (by decide) (by decide) rfl, rfl⟩
  · exact ⟨2, rfl, ⟨_, apiData "hello" "yellow" false "html" none, _⟩,
      _api_posted "api.hipchat.com" (some "a,b,c") "c" 2 transport
        (SEND_ROOM_MESSAGE_URL "api.hipchat.com" "room") "hello" "yellow" none false
        "html" (by decide) (by decide) (by decide) rfl, rfl⟩

/-- C6 witness: the token `a` of `a,b,c` is resolved under choice index 0
and used as the request's bearer token. -/
theorem C6_each_token_reachable_witness :
    ∃ i : Nat,
      _token (some "a,b,c") i = some "a"
      ∧ ∃ req,
          (notify_room "api.hipchat.com" (some "a,b,c") i (fun _ => .err "network down")
              "room" (some "hello") "yellow" none false "html").posted = some req
          ∧ req.headers.authorization = "Bearer " ++ "a" :=
  C6_each_token_reachable (fun _ => .err "network down") "a" (by decide)

/-- C7: for every mocked transport returning a status in
`BAD_RESPONSE_CODES` whose JSON body has an `error` object with a
`message` string, the validated, credentialed call raises `HipChatError`
carrying exactly that status code and that message. -/
theorem C7_remote_error (host tok url msg color fmt em : String) (choice : Nat)
    (label : Option String) (notify : Bool) (status : Nat)
    (body efields : List (String × Json))
    (hmsg : 1 ≤ msg.length) (hc : color ∈ VALID_COLORS) (hf : fmt ∈ VALID_FORMATS)
    (hstatus : status ∈ BAD_RESPONSE_CODES)
    (hbody : body.lookup "error" = some (Json.obj efields))
    (hmsgf : efields.lookup "message" = some (Json.str em)) :
    (_api host (some tok) choice (fun _ => TransportResult.resp ⟨status, body⟩) url
        (some msg) color label notify fmt).outcome
      = ApiOutcome.remoteError status (Json.str em) := by
  obtain ⟨h4, h6⟩ := bad_code_range status hstatus
  rw [_api_send_eq host (some tok) _ choice _ url msg color label notify fmt
      hmsg hc hf (_token_some tok choice),
    apiSend_resp_outcome _ _ _ _ _ h4 h6,
    HipChatError_init_ok status body efields (Json.str em) hstatus hbody hmsgf]

/-- C7 witness: a mocked 400 response with body
`{"error": {"message": "bad request"}}` makes a `notify_room`-shaped call
raise `HipChatError` with message `bad request` and status 400. -/
theorem C7_remote_error_witness :
    (_api "api.hipchat.com" (some "token") 0
        (fun _ => TransportResult.resp
          ⟨400, [("error", Json.obj [("message", Json.str "bad request")])]⟩)
        (SEND_ROOM_MESSAGE_URL "api.hipchat.com" "room") (some "msg") "yellow" none
        false "html").outcome
      = ApiOutcome.remoteError 400 (Json.str "bad request") :=
  C7_remote_error "api.hipchat.com" "token"
    (SEND_ROOM_MESSAGE_URL "api.hipchat.com" "room") "msg" "yellow" "html"
    "bad request" 0 none false 400 [("error", Json.obj [("message", Json.str "bad request")])]
    [("message", Json.str "bad request")]
    (by decide) (by decide) (by decide) (by decide) rfl rfl

/-- C8 counterexample: a mocked 400 response whose body is
`{"error": {}}` does not match the expected error shape, yet the call
fails with an uncaught `KeyError` from
`response.json()['error']['message']` -- not with the assertion-style
`ContractViolation` the claim requires for every malformed body. -/
theorem C8_counterexample :
    (_api "api.hipchat.com" (some "token") 0
        (fun _ => TransportResult.resp ⟨400, [("error", Json.obj [])]⟩) "u"
        (some "hi") "yellow" none false "html").outcome
      = ApiOutcome.lookupError "KeyError: message"
    ∧ ∀ m, (_api "api.hipchat.com" (some "token") 0
        (fun _ => TransportResult.resp ⟨400, [("error", Json.obj [])]⟩) "u"
        (some "hi") "yellow" none false "html").outcome
      ≠ ApiOutcome.contractViolation m := by
  refine ⟨rfl, ?_⟩
  intro m h
  rw [show (_api "api.hipchat.com" (some "token") 0
      (fun _ => TransportResult.resp ⟨400, [("error", Json.obj [])]⟩) "u"
      (some "hi") "yellow" none false "html").outcome
      = ApiOutcome.lookupError "KeyError: message" from rfl] at h
  exact ApiOutcome.noConfusion h

/-- C8 (amended): for every bad-status response whose JSON body lacks the
`error` key (e.g. status 400 with body `{}`), the validated, credentialed
call fails with the assertion-style `ContractViolation` raised by
`HipChatError.__init__`, not with the domain `RemoteError`; a body whose
`error` value merely lacks `message` instead fails with an uncaught
lookup error. -/
theorem C8_missing_error_key (host tok url msg color fmt : String) (choice : Nat)
    (label : Option String) (notify : Bool) (status : Nat)
    (body : List (String × Json))
    (hmsg : 1 ≤ msg.length) (hc : color ∈ VALID_COLORS) (hf : fmt ∈ VALID_FORMATS)
    (hstatus : status ∈ BAD_RESPONSE_CODES)
    (hbody : body.lookup "error" = none) :
    (_api host (some tok) choice (fun _ => TransportResult.resp ⟨status, body⟩) url
        (some msg) color label notify fmt).outcome
      = ApiOutcome.contractViolation "Invalid HipChatError response.json()"
    ∧ ∀ sc m, (_api host (some tok) choice (fun _ => TransportResult.resp ⟨status, body⟩)
        url (some msg) color label notify fmt).outcome
      ≠ ApiOutcome.remoteError sc m := by
  obtain ⟨h4, h6⟩ := bad_code_range status hstatus
  have hmain : (_api host (some tok) choice (fun _ => TransportResult.resp ⟨status, body⟩)
      url (some msg) color label notify fmt).outcome
      = ApiOutcome.contractViolation "Invalid HipChatError response.json()" := by
    rw [_api_send_eq host (some tok) _ choice _ url msg color label notify fmt
        hmsg hc hf (_token_some tok choice),
      apiSend_resp_outcome _ _ _ _ _ h4 h6,
      HipChatError_init_no_error_key status body hstatus hbody]
  refine ⟨hmain, ?_⟩
  intro sc m h
  rw [hmain] at h
  exact ApiOutcome.noConfusion h

/-- C8 witness: a mocked 400 response with body `{}` raises the
assertion-style `ContractViolation`, and not `RemoteError`. -/
theorem C8_missing_error_key_witness :
    (_api "api.hipchat.com" (some "token") 0
        (fun _ => TransportResult.resp ⟨400, []⟩) "u" (some "hi") "yellow" none
        false "html").outcome
      = ApiOutcome.contractViolation "Invalid HipChatError response.json()"
    ∧ ∀ sc m, (_api "api.hipchat.com" (some "token") 0
        (fun _ => TransportResult.resp ⟨400, []⟩) "u" (some "hi") "yellow" none
        false "html").outcome
      ≠ ApiOutcome.remoteError sc m :=
  C8_missing_error_key "api.hipchat.com" "token" "u" "hi" "yellow" "html" 0 none
    false 400 [] (by decide) (by decide) (by decide) (by decide) rfl

/-- C9: `HipChatHandler.emit` sends a room notification whose color is the
record's level name looked up in the configured mapping, falling back to
`yellow` for an unrecognized level name; under the default mapping a
DEBUG record is sent with color `gray` and an ERROR record with color
`red`. -/
theorem C9_log_level_colors (colors : List (String × String))
    (tok room lbl msg lvl fmt : String) (ntf : Bool) (choice : Nat)
    (transport : PostRequest → TransportResult)
    (hmsg : 1 ≤ msg.length) (hf : fmt ∈ VALID_FORMATS)
    (hcolor : (List.lookup lvl colors).getD "yellow" ∈ VALID_COLORS) :
    (∃ req,
        (HipChatHandler.emit ⟨tok, room, lbl, ntf, colors, fmt⟩ "api.hipchat.com"
            (some tok) choice transport ⟨lvl, msg⟩).posted = some req
        ∧ req.body.lookup "color"
          = some (Json.str ((List.lookup lvl colors).getD "yellow")))
    ∧ (∃ req,
        (HipChatHandler.emit ⟨tok, room, lbl, ntf, DEFAULT_COLOURS, fmt⟩
            "api.hipchat.com" (some tok) choice transport ⟨"DEBUG", msg⟩).posted
          = some req
        ∧ req.body.lookup "color" = some (Json.str "gray"))
    ∧ (∃ req,
        (HipChatHandler.emit ⟨tok, room, lbl, ntf, DEFAULT_COLOURS, fmt⟩
            "api.hipchat.com" (some tok) choice transport ⟨"ERROR", msg⟩).posted
          = some req
        ∧ req.body.lookup "color" = some (Json.str "red")) := by
  refine ⟨⟨_, _api_posted "api.hipchat.com" (some tok) _ choice transport
      (SEND_ROOM_MESSAGE_URL "api.hipchat.com" room) msg
      ((List.lookup lvl colors).getD "yellow") (some lbl) ntf fmt
      hmsg hcolor hf (_token_some tok choice), rfl⟩,
    ⟨_, _api_posted "api.hipchat.com" (some tok) _ choice transport
      (SEND_ROOM_MESSAGE_URL "api.hipchat.com" room) msg
      ((List.lookup "DEBUG" DEFAULT_COLOURS).getD "yellow") (some lbl) ntf fmt
      hmsg (by decide) hf (_token_some tok choice), rfl⟩,
    ⟨_, _api_posted "api.hipchat.com" (some tok) _ choice transport
      (SEND_ROOM_MESSAGE_URL "api.hipchat.com" room) msg
      ((List.lookup "ERROR" DEFAULT_COLOURS).getD "yellow") (some lbl) ntf fmt
      hmsg (by decide) hf (_token_some tok choice), rfl⟩⟩

/-- C9 witness: a concrete handler with the default mapping posts `gray`
for DEBUG, `red` for ERROR, and the looked-up color for an INFO record. -/
theorem C9_log_level_colors_witness :
    (∃ req,
        (HipChatHandler.emit ⟨"token", "room", "", false, DEFAULT_COLOURS, "html"⟩
            "api.hipchat.com" (some "token") 0 (fun _ => .err "network down")
            ⟨"INFO", "boom"⟩).posted = some req
        ∧ req.body.lookup "color"
          = some (Json.str ((List.lookup "INFO" DEFAULT_COLOURS).getD "yellow")))
    ∧ (∃ req,
        (HipChatHandler.emit ⟨"token", "room", "", false, DEFAULT_COLOURS, "html"⟩
            "api.hipchat.com" (some "token") 0 (fun _ => .err "network down")
            ⟨"DEBUG", "boom"⟩).posted = some req
        ∧ req.body.lookup "color" = some (Json.str "gray"))
    ∧ (∃ req,
        (HipChatHandler.emit ⟨"token", "room", "", false, DEFAULT_COLOURS, "html"⟩
            "api.hipchat.com" (some "token") 0 (fun _ => .err "network down")
            ⟨"ERROR", "boom"⟩).posted = some req
        ∧ req.body.lookup "color" = some (Json.str "red")) :=
  C9_log_level_colors DEFAULT_COLOURS "token" "room" "" "boom" "INFO" "html" false 0
    (fun _ => .err "network down") (by decide) (by decide) (by decide)

end HipChat
